import Mathlib

/-!
Shallow embedding of the OmniSpeed continuous speed-test application: the
probe engine (`runSpeedTest` in `src/services/speedTest.ts`), the scheduler
and history store (`App.tsx`), and the insight service
(`getNetworkInsights` in the Gemini service module).

Wall-clock durations and computed throughputs are modelled as exact
rationals; the nondeterministic outcomes of the network calls (success with
measured data, or failure) are explicit inputs to the embedded functions.
-/

/-- One measurement sample, mirroring the `SpeedResult` interface of
`src/types.ts`. -/
structure SpeedResult where
  timestamp : ℤ
  download : ℚ
  upload : ℚ
  latency : ℚ
  jitter : ℚ
deriving DecidableEq

/-- Outcome of one latency round-trip: either the fetch resolved after
`elapsed` milliseconds, or it threw and the code substitutes `20 + r * 10`
where `r` models the `Math.random()` draw. -/
inductive LatAttempt
  | ok (elapsed : ℚ)
  | err (r : ℚ)
deriving DecidableEq

/-- Outcome of one download attempt: a resolved fetch with the received
body size in bytes and the elapsed milliseconds, or a thrown error. -/
inductive DlAttempt
  | ok (size : ℕ) (elapsedMs : ℚ)
  | err
deriving DecidableEq

/-- Outcome of one upload POST: a response (with its `ok` status flag and
the elapsed milliseconds) or a network-level error.  A response with
`ok = false` makes the code throw and take the fallback path. -/
inductive UpAttempt
  | resp (ok : Bool) (elapsedMs : ℚ)
  | netErr
deriving DecidableEq

/-- The nondeterministic data of one probe cycle: 5 latency attempts,
3 download attempts and 2 upload attempts, exactly the loop bounds of
`runSpeedTest`. -/
structure ProbeInput where
  lat : Fin 5 → LatAttempt
  dl : Fin 3 → DlAttempt
  up : Fin 2 → UpAttempt

/-- The value pushed onto `latencies` for one attempt. -/
def latSample : LatAttempt → ℚ
  | .ok e => e
  | .err r => 20 + r * 10

/-- The `latencies` array after the 5-iteration loop. -/
def latencies (inp : ProbeInput) : List ℚ :=
  List.ofFn fun i => latSample (inp.lat i)

/-- `avgLatency` of the source: sum of the samples over their count. -/
def avgLatency (inp : ProbeInput) : ℚ :=
  (latencies inp).sum / (latencies inp).length

/-- `Math.max(...xs)` over a nonempty argument list. -/
def listMax : List ℚ → ℚ
  | [] => 0
  | x :: xs => xs.foldl max x

/-- `Math.min(...xs)` over a nonempty argument list. -/
def listMin : List ℚ → ℚ
  | [] => 0
  | x :: xs => xs.foldl min x

/-- The `jitter` aggregate of the source:
`Math.max(...latencies) - Math.min(...latencies)`. -/
def jitterOf (inp : ProbeInput) : ℚ :=
  listMax (latencies inp) - listMin (latencies inp)

/-- Throughput recorded for one download attempt:
`((blob.size * 8) / 1024 / 1024) / ((end - start) / 1000)` on success and
`0` on a thrown fetch. -/
def dlSpeed : DlAttempt → ℚ
  | .ok size elapsedMs => ((size : ℚ) * 8) / 1024 / 1024 / (elapsedMs / 1000)
  | .err => 0

/-- The `downloadSpeeds` array after the 3-iteration loop. -/
def downloadSpeeds (inp : ProbeInput) : List ℚ :=
  List.ofFn fun i => dlSpeed (inp.dl i)

/-- `avgDownload`: the sum of the recorded speeds divided by
`Math.max(1, downloadSpeeds.filter(s => s > 0).length)`. -/
def avgDownload (inp : ProbeInput) : ℚ :=
  (downloadSpeeds inp).sum /
    ((max 1 ((downloadSpeeds inp).filter fun s => decide (0 < s)).length : ℕ) : ℚ)

/-- Throughput recorded for one upload attempt.  The payload is the fixed
`uploadSize = 1024 * 1024` bytes; a response with `ok = false` throws
inside the `try`, so both it and a network error take the
`avgDownload * 0.4` fallback. -/
def upSpeed (dlAvg : ℚ) : UpAttempt → ℚ
  | .resp true elapsedMs => ((1024 * 1024 * 8 : ℚ) / 1024 / 1024) / (elapsedMs / 1000)
  | .resp false _ => dlAvg * (2 / 5)
  | .netErr => dlAvg * (2 / 5)

/-- The `uploadSpeeds` array after the 2-iteration loop. -/
def uploadSpeeds (inp : ProbeInput) : List ℚ :=
  List.ofFn fun i => upSpeed (avgDownload inp) (inp.up i)

/-- `avgUpload`: sum of the two recorded values over their count. -/
def avgUpload (inp : ProbeInput) : ℚ :=
  (uploadSpeeds inp).sum / (uploadSpeeds inp).length

/-- `Number(x.toFixed(d))` for a finite value: round to `d` decimal
places, a tie going to the larger candidate (the ECMAScript `toFixed`
rule). -/
def roundTo (d : ℕ) (x : ℚ) : ℚ :=
  ((⌊x * 10 ^ d + 1 / 2⌋ : ℤ) : ℚ) / 10 ^ d

/-- The probe engine `runSpeedTest`, with the cycle's nondeterministic
network outcomes passed as `inp` and `Date.now()` as `ts`.  The function
is total: every failure mode of the source is absorbed by a fallback
branch of the attempt functions above, so a full five-field sample is
produced from any input. -/
def runSpeedTest (ts : ℤ) (inp : ProbeInput) : SpeedResult where
  timestamp := ts
  download := roundTo 2 (avgDownload inp)
  upload := roundTo 2 (avgUpload inp)
  latency := roundTo 1 (avgLatency inp)
  jitter := roundTo 1 (jitterOf inp)

/-- Qualitative status values of `NetworkInsight` (`src/types.ts`). -/
inductive InsightStatus
  | excellent
  | good
  | fair
  | poor
deriving DecidableEq

/-- The insight triple of `src/types.ts`. -/
structure NetworkInsight where
  status : InsightStatus
  summary : String
  recommendations : List String
deriving DecidableEq

/-- Outcome of the `ai.models.generateContent` call: the request may
throw, or return a response whose `text` may be absent; a present text is
parsed, with `parsed = none` modelling a `JSON.parse` failure. -/
inductive AIOutcome
  | noResponse
  | reply (text : Option String) (parsed : Option NetworkInsight)
deriving DecidableEq

/-- Default triple returned when history is empty. -/
def insufficientDataInsight : NetworkInsight where
  status := .fair
  summary := "Insufficient data to analyze."
  recommendations := ["Keep monitoring to gather trends."]

/-- Default triple returned from the `catch` branch. -/
def connectFailInsight : NetworkInsight where
  status := .good
  summary := "Unable to connect to AI analyzer at the moment."
  recommendations := ["Verify your ISP plan if speeds seem low."]

/-- `getNetworkInsights` of the Gemini service: an empty history
short-circuits to the `fair` default without consulting the collaborator;
otherwise a thrown request, an absent or empty `text` (`if (!text) throw`)
and an unparseable body all land in the `catch` branch. -/
def getNetworkInsights (history : List SpeedResult) (collab : AIOutcome) : NetworkInsight :=
  if history.isEmpty then insufficientDataInsight
  else
    match collab with
    | .noResponse => connectFailInsight
    | .reply none _ => connectFailInsight
    | .reply (some t) parsed =>
        if t = "" then connectFailInsight
        else
          match parsed with
          | none => connectFailInsight
          | some ins => ins

/-- The collaborator outcomes the spec calls failures: no response, or
content that cannot be used (`text` absent or empty, parse failure). -/
def AIOutcome.failed : AIOutcome → Prop
  | .noResponse => True
  | .reply none _ => True
  | .reply (some t) parsed => t = "" ∨ parsed = none

/-- Scheduler state of `App.tsx`: the in-memory `history` React state, the
copy persisted to `localStorage` by the save effect, the latest insight
triple, and the `isTesting` single-flight flag. -/
structure AppState where
  history : List SpeedResult
  stored : List SpeedResult
  insights : Option NetworkInsight
  isTesting : Bool
deriving DecidableEq

/-- Initial state: empty history, nothing persisted, no insights, idle. -/
def initialState : AppState where
  history := []
  stored := []
  insights := none
  isTesting := false

/-- `history.slice(-100)`: the at-most-100 most recent entries, as written
to `localStorage` by the save effect (the "Keep last 100" line). -/
def persistSlice (h : List SpeedResult) : List SpeedResult :=
  h.drop (h.length - 100)

/-- Entry into `performTest`, reached from the Run Now button and from the
countdown tick alike: when `isTesting` is set the guard returns at once;
otherwise the flag is set and the probe cycle starts. -/
def triggerTest (s : AppState) : AppState :=
  if s.isTesting then s else { s with isTesting := true }

/-- Completion of an in-flight probe cycle with result `r`: the result is
appended to the in-memory `history`, the save effect re-persists the
trimmed slice, the insight collaborator is consulted on the updated
history (behind the `currentHistory.length >= 1` guard), and the flag is
cleared in the `finally` block. -/
def completeTest (s : AppState) (r : SpeedResult) (collab : AIOutcome) : AppState :=
  let h := s.history ++ [r]
  { history := h
    stored := persistSlice h
    insights := if 1 ≤ h.length then some (getNetworkInsights h collab) else s.insights
    isTesting := false }

/-! Helper lemmas. -/

theorem roundTo_nonneg {d : ℕ} {x : ℚ} (hx : 0 ≤ x) : 0 ≤ roundTo d x := by
  unfold roundTo
  apply div_nonneg
  · have hfl : (0 : ℤ) ≤ ⌊x * 10 ^ d + 1 / 2⌋ := by
      apply Int.floor_nonneg.2
      have h1 : 0 ≤ x * 10 ^ d := mul_nonneg hx (by positivity)
      linarith
    exact_mod_cast hfl
  · positivity

theorem foldl_min_le_init (xs : List ℚ) : ∀ x : ℚ, xs.foldl min x ≤ x := by
  induction xs with
  | nil => intro x; exact le_refl x
  | cons a xs ih =>
      intro x
      exact le_trans (ih (min x a)) (min_le_left x a)

theorem init_le_foldl_max (xs : List ℚ) : ∀ x : ℚ, x ≤ xs.foldl max x := by
  induction xs with
  | nil => intro x; exact le_refl x
  | cons a xs ih =>
      intro x
      exact le_trans (le_max_left x a) (ih (max x a))

theorem listMin_le_listMax {l : List ℚ} (h : l ≠ []) : listMin l ≤ listMax l := by
  cases l with
  | nil => exact absurd rfl h
  | cons a xs =>
      exact le_trans (foldl_min_le_init xs a) (init_le_foldl_max xs a)

theorem latSample_nonneg {a : LatAttempt}
    (hok : ∀ e, a = LatAttempt.ok e → 0 ≤ e)
    (herr : ∀ r, a = LatAttempt.err r → 0 ≤ r) : 0 ≤ latSample a := by
  cases a with
  | ok e => simpa [latSample] using hok e rfl
  | err r =>
      have hr := herr r rfl
      simp only [latSample]
      linarith [mul_nonneg hr (by norm_num : (0 : ℚ) ≤ 10)]

theorem dlSpeed_nonneg {a : DlAttempt}
    (h : ∀ s d, a = DlAttempt.ok s d → 0 < d) : 0 ≤ dlSpeed a := by
  cases a with
  | ok s d =>
      have hd := h s d rfl
      unfold dlSpeed
      exact div_nonneg (by positivity) (div_nonneg hd.le (by norm_num))
  | err => simp [dlSpeed]

theorem avgDownload_nonneg (inp : ProbeInput)
    (hdl : ∀ i s d, inp.dl i = DlAttempt.ok s d → 0 < d) :
    0 ≤ avgDownload inp := by
  unfold avgDownload
  apply div_nonneg
  · apply List.sum_nonneg
    intro x hx
    rw [downloadSpeeds, List.mem_ofFn] at hx
    obtain ⟨i, hi⟩ := hx
    subst hi
    exact dlSpeed_nonneg fun s d hsd => hdl i s d hsd
  · exact Nat.cast_nonneg _

theorem upSpeed_nonneg {dlAvg : ℚ} (hdl : 0 ≤ dlAvg) {a : UpAttempt}
    (h : ∀ b d, a = UpAttempt.resp b d → 0 < d) : 0 ≤ upSpeed dlAvg a := by
  cases a with
  | resp b d =>
      have hd := h b d rfl
      cases b
      · simpa [upSpeed] using mul_nonneg hdl (by norm_num : (0 : ℚ) ≤ 2 / 5)
      · simp only [upSpeed]
        exact div_nonneg (by norm_num) (div_nonneg hd.le (by norm_num))
  | netErr => simpa [upSpeed] using mul_nonneg hdl (by norm_num : (0 : ℚ) ≤ 2 / 5)

theorem avgUpload_nonneg (inp : ProbeInput)
    (hdl : ∀ i s d, inp.dl i = DlAttempt.ok s d → 0 < d)
    (hup : ∀ i b d, inp.up i = UpAttempt.resp b d → 0 < d) :
    0 ≤ avgUpload inp := by
  unfold avgUpload
  apply div_nonneg
  · apply List.sum_nonneg
    intro x hx
    rw [uploadSpeeds, List.mem_ofFn] at hx
    obtain ⟨i, hi⟩ := hx
    subst hi
    exact upSpeed_nonneg (avgDownload_nonneg inp hdl) fun b d hbd => hup i b d hbd
  · exact Nat.cast_nonneg _

theorem avgLatency_nonneg (inp : ProbeInput)
    (hlatOk : ∀ i e, inp.lat i = LatAttempt.ok e → 0 ≤ e)
    (hlatErr : ∀ i r, inp.lat i = LatAttempt.err r → 0 ≤ r) :
    0 ≤ avgLatency inp := by
  unfold avgLatency
  apply div_nonneg
  · apply List.sum_nonneg
    intro x hx
    rw [latencies, List.mem_ofFn] at hx
    obtain ⟨i, hi⟩ := hx
    subst hi
    exact latSample_nonneg (fun e he => hlatOk i e he) (fun r hr => hlatErr i r hr)
  · exact Nat.cast_nonneg _

theorem latencies_ne_nil (inp : ProbeInput) : latencies inp ≠ [] := by
  have h5 : (latencies inp).length = 5 := by simp [latencies]
  intro hnil
  rw [hnil] at h5
  simp at h5

/-- A probe cycle in which every network attempt fails (total outage), with
every synthetic latency draw being `r = 0`. -/
def allFailInput : ProbeInput where
  lat := fun _ => .err 0
  dl := fun _ => .err
  up := fun _ => .netErr

/-- C1: every invocation of the probe engine returns a complete
`SpeedResult` — the embedded `runSpeedTest` is a total function producing
all five fields from any outcome of the network attempts — and, whenever
measured elapsed times are well-formed (successful attempts take positive
time, latency samples are nonnegative, `Math.random` draws are
nonnegative), the four metrics satisfy `download ≥ 0`, `upload ≥ 0`,
`latency ≥ 0` and `jitter ≥ 0`. -/
theorem runSpeedTest_fields_nonneg (ts : ℤ) (inp : ProbeInput)
    (hlatOk : ∀ i e, inp.lat i = LatAttempt.ok e → 0 ≤ e)
    (hlatErr : ∀ i r, inp.lat i = LatAttempt.err r → 0 ≤ r)
    (hdl : ∀ i s d, inp.dl i = DlAttempt.ok s d → 0 < d)
    (hup : ∀ i b d, inp.up i = UpAttempt.resp b d → 0 < d) :
    0 ≤ (runSpeedTest ts inp).download ∧ 0 ≤ (runSpeedTest ts inp).upload ∧
      0 ≤ (runSpeedTest ts inp).latency ∧ 0 ≤ (runSpeedTest ts inp).jitter := by
  have hJ : 0 ≤ jitterOf inp := by
    unfold jitterOf
    exact sub_nonneg.2 (listMin_le_listMax (latencies_ne_nil inp))
  exact ⟨roundTo_nonneg (avgDownload_nonneg inp hdl),
    roundTo_nonneg (avgUpload_nonneg inp hdl hup),
    roundTo_nonneg (avgLatency_nonneg inp hlatOk hlatErr),
    roundTo_nonneg hJ⟩

/-- Witness for C1 at the total-outage input. -/
theorem runSpeedTest_fields_nonneg_witness :
    0 ≤ (runSpeedTest 0 allFailInput).download ∧
      0 ≤ (runSpeedTest 0 allFailInput).upload ∧
      0 ≤ (runSpeedTest 0 allFailInput).latency ∧
      0 ≤ (runSpeedTest 0 allFailInput).jitter :=
  runSpeedTest_fields_nonneg 0 allFailInput
    (fun i e h => by simp [allFailInput] at h)
    (fun i r h => by
      simp only [allFailInput] at h
      rw [LatAttempt.err.injEq] at h
      exact le_of_eq h)
    (fun i s d h => by simp [allFailInput] at h)
    (fun i b d h => by simp [allFailInput] at h)

/-- C3: the latency phase always yields exactly 5 timing samples; a failed
attempt is replaced by the synthetic value `20 + r * 10`, which lies in
the 20–30 ms range for any `Math.random` draw `r ∈ [0, 1)`; `latency` is
the (rounded) arithmetic mean of the 5 samples and `jitter` the (rounded)
difference between the maximum and minimum sample, however many attempts
failed. -/
theorem latency_phase_spec (ts : ℤ) (inp : ProbeInput)
    (hr : ∀ i r, inp.lat i = LatAttempt.err r → 0 ≤ r ∧ r < 1) :
    (latencies inp).length = 5 ∧
      (∀ i r, inp.lat i = LatAttempt.err r →
        20 ≤ latSample (inp.lat i) ∧ latSample (inp.lat i) < 30) ∧
      (runSpeedTest ts inp).latency = roundTo 1 ((latencies inp).sum / 5) ∧
      (runSpeedTest ts inp).jitter =
        roundTo 1 (listMax (latencies inp) - listMin (latencies inp)) := by
  refine ⟨by simp [latencies], ?_, ?_, rfl⟩
  · intro i r h
    obtain ⟨h0, h1⟩ := hr i r h
    rw [h]
    simp only [latSample]
    constructor
    · linarith [mul_nonneg h0 (by norm_num : (0 : ℚ) ≤ 10)]
    · nlinarith
  · show roundTo 1 (avgLatency inp) = roundTo 1 ((latencies inp).sum / 5)
    unfold avgLatency
    rw [show ((latencies inp).length : ℚ) = 5 by simp [latencies]]

/-- Witness for C3 at the total-outage input. -/
theorem latency_phase_spec_witness :
    (latencies allFailInput).length = 5 ∧
      (∀ i r, allFailInput.lat i = LatAttempt.err r →
        20 ≤ latSample (allFailInput.lat i) ∧ latSample (allFailInput.lat i) < 30) ∧
      (runSpeedTest 0 allFailInput).latency = roundTo 1 ((latencies allFailInput).sum / 5) ∧
      (runSpeedTest 0 allFailInput).jitter =
        roundTo 1 (listMax (latencies allFailInput) - listMin (latencies allFailInput)) :=
  latency_phase_spec 0 allFailInput (fun i r h => by
    simp only [allFailInput] at h
    rw [LatAttempt.err.injEq] at h
    exact ⟨le_of_eq h, by rw [← h]; norm_num⟩)

/-- C4: `upload` is the average of the 2 attempt results over a
denominator of exactly 2, where a successful attempt records the genuine
measured throughput of the fixed 1 MiB payload and any failure — a
network error or a response with a non-success status code — records the
substituted estimate `avgDownload * 0.4`. -/
theorem upload_phase_spec (ts : ℤ) (inp : ProbeInput) :
    (runSpeedTest ts inp).upload =
        roundTo 2 ((upSpeed (avgDownload inp) (inp.up 0) +
          upSpeed (avgDownload inp) (inp.up 1)) / 2) ∧
      (∀ d, upSpeed (avgDownload inp) (UpAttempt.resp false d) =
        avgDownload inp * (2 / 5)) ∧
      upSpeed (avgDownload inp) UpAttempt.netErr = avgDownload inp * (2 / 5) ∧
      ∀ d, upSpeed (avgDownload inp) (UpAttempt.resp true d) =
        ((1024 * 1024 * 8 : ℚ) / 1024 / 1024) / (d / 1000) := by
  refine ⟨?_, fun d => rfl, rfl, fun d => rfl⟩
  show roundTo 2 (avgUpload inp) = _
  unfold avgUpload uploadSpeeds
  norm_num [List.ofFn_succ]

/-- Whether a download attempt resolved (the spec's "successful
attempt"). -/
def DlAttempt.isOk : DlAttempt → Bool
  | .ok _ _ => true
  | .err => false

/-- Number of download attempts that resolved. -/
def numDlSuccess (inp : ProbeInput) : ℕ :=
  ((List.ofFn inp.dl).filter DlAttempt.isOk).length

/-- Modelled from the spec words of C2 (not from the source): the sum of
the three recorded throughputs divided by the number of *successful*
attempts, floored at 1. -/
def downloadSpecAvg (inp : ProbeInput) : ℚ :=
  (downloadSpeeds inp).sum / ((max 1 (numDlSuccess inp) : ℕ) : ℚ)

/-- A cycle whose download attempts are: a success measuring exactly
100 Mbps (1310720 bytes in 100 ms), a success with a zero-byte body
(throughput 0), and a thrown fetch. -/
def dlCexInput : ProbeInput where
  lat := fun _ => .err 0
  dl := ![.ok 1310720 100, .ok 0 100, .err]
  up := fun _ => .netErr

/-- C2 counterexample: with two successful attempts, one of them measuring
0 Mbps from a zero-byte body, the code divides the sum by the count of
*strictly positive* recorded throughputs (here 1, yielding 100), not by
the count of successful attempts (here 2, which would yield 50). -/
theorem download_avg_claim_cex :
    (runSpeedTest 0 dlCexInput).download ≠ roundTo 2 (downloadSpecAvg dlCexInput) := by
  have hsp : downloadSpeeds dlCexInput = [100, 0, 0] := by
    norm_num [downloadSpeeds, dlCexInput, dlSpeed, List.ofFn_succ]
  have t1 : (decide ((0 : ℚ) < 100)) = true := decide_eq_true (by norm_num)
  have t2 : (decide ((0 : ℚ) < 0)) = false := decide_eq_false (by norm_num)
  have h1 : (runSpeedTest 0 dlCexInput).download = 100 := by
    show roundTo 2 (avgDownload dlCexInput) = 100
    rw [avgDownload, hsp]
    norm_num [List.filter_cons, t1, t2, roundTo]
  have hn : numDlSuccess dlCexInput = 2 := by
    norm_num [numDlSuccess, dlCexInput, List.ofFn_succ, DlAttempt.isOk, List.filter_cons]
  have h2 : roundTo 2 (downloadSpecAvg dlCexInput) = 50 := by
    rw [downloadSpecAvg, hsp, hn]
    norm_num [roundTo]
  rw [h1, h2]
  norm_num

/-- C2 amended: a failed download attempt contributes a throughput of 0
and the denominator, floored at 1, counts the attempts whose recorded
throughput is strictly positive; whenever every successful attempt
measured a strictly positive throughput this coincides with the spec's
average over the count of successful attempts.  In particular all three
attempts failing gives `download = 0`, and a single successful attempt
measuring 100 Mbps gives `download = 100`. -/
theorem download_avg_amended (ts : ℤ) (inp : ProbeInput)
    (h : ∀ i, (inp.dl i).isOk = true → 0 < dlSpeed (inp.dl i)) :
    (runSpeedTest ts inp).download = roundTo 2 (downloadSpecAvg inp) := by
  suffices hc : ((downloadSpeeds inp).filter fun s => decide (0 < s)).length
      = numDlSuccess inp by
    show roundTo 2 (avgDownload inp) = roundTo 2 (downloadSpecAvg inp)
    unfold avgDownload downloadSpecAvg
    rw [hc]
  rw [← List.countP_eq_length_filter]
  unfold numDlSuccess
  rw [← List.countP_eq_length_filter]
  have hmap : downloadSpeeds inp = (List.ofFn inp.dl).map dlSpeed := by
    rw [List.map_ofFn]
    rfl
  rw [hmap, List.countP_map]
  apply List.countP_congr
  intro a ha
  rw [List.mem_ofFn] at ha
  obtain ⟨i, hi⟩ := ha
  constructor
  · intro hp
    cases hcase : a with
    | ok s d => simp [DlAttempt.isOk]
    | err =>
        rw [hcase] at hp
        simp [Function.comp, dlSpeed] at hp
  · intro hq
    subst hi
    have := h i hq
    simpa [Function.comp] using this

/-- A cycle with exactly one successful download attempt, measuring
exactly 100 Mbps. -/
def dlOneOkInput : ProbeInput where
  lat := fun _ => .err 0
  dl := ![.ok 1310720 100, .err, .err]
  up := fun _ => .netErr

/-- Witness for the amended C2: one successful attempt at 100 Mbps, the
other two failed, gives `download = 100`. -/
theorem download_avg_amended_witness :
    (runSpeedTest 0 dlOneOkInput).download = roundTo 2 (downloadSpecAvg dlOneOkInput) ∧
      (runSpeedTest 0 dlOneOkInput).download = 100 := by
  constructor
  · exact download_avg_amended 0 dlOneOkInput (fun i hi => by
      fin_cases i <;> simp [dlOneOkInput, DlAttempt.isOk, dlSpeed] at hi ⊢)
  · have hsp : downloadSpeeds dlOneOkInput = [100, 0, 0] := by
      norm_num [downloadSpeeds, dlOneOkInput, dlSpeed, List.ofFn_succ]
    have t1 : (decide ((0 : ℚ) < 100)) = true := decide_eq_true (by norm_num)
    have t2 : (decide ((0 : ℚ) < 0)) = false := decide_eq_false (by norm_num)
    show roundTo 2 (avgDownload dlOneOkInput) = 100
    rw [avgDownload, hsp]
    norm_num [List.filter_cons, t1, t2, roundTo]

/-- C9: for a successful download attempt the recorded throughput in
megabits/second equals `(bytes_received * 8) / 1048576 / duration_seconds`,
`elapsedMs / 1000` being the elapsed wall-clock seconds from request start
to full body receipt (the source divides by 1024 twice, which is the
same constant). -/
theorem dlSpeed_formula (size : ℕ) (elapsedMs : ℚ) :
    dlSpeed (DlAttempt.ok size elapsedMs) =
      ((size : ℚ) * 8) / 1048576 / (elapsedMs / 1000) := by
  have h : ((size : ℚ) * 8) / 1024 / 1024 = ((size : ℚ) * 8) / 1048576 := by
    rw [div_div]
    norm_num
  simp only [dlSpeed]
  rw [h]

/-- The probe input with download attempt `i` replaced. -/
def setDl (inp : ProbeInput) (i : Fin 3) (a : DlAttempt) : ProbeInput :=
  { inp with dl := Function.update inp.dl i a }

/-- C10: a download attempt that succeeds with a recorded throughput of
exactly 0 (for example a zero-byte body) is treated by the averaging
exactly like a failed attempt — replacing it by a failure changes nothing
in the returned sample — because the denominator counts the attempts with
strictly positive recorded throughput, not the successful ones. -/
theorem zero_speed_success_like_failure (ts : ℤ) (inp : ProbeInput) (i : Fin 3)
    (h : dlSpeed (inp.dl i) = 0) :
    runSpeedTest ts (setDl inp i DlAttempt.err) = runSpeedTest ts inp := by
  have hDS : downloadSpeeds (setDl inp i DlAttempt.err) = downloadSpeeds inp := by
    unfold downloadSpeeds setDl
    refine congrArg List.ofFn (funext fun j => ?_)
    dsimp only
    by_cases hj : j = i
    · subst hj
      rw [Function.update_same]
      rw [show dlSpeed DlAttempt.err = 0 from rfl, h]
    · rw [Function.update_noteq hj]
  have hAvg : avgDownload (setDl inp i DlAttempt.err) = avgDownload inp := by
    unfold avgDownload
    rw [hDS]
  have hUp : avgUpload (setDl inp i DlAttempt.err) = avgUpload inp := by
    unfold avgUpload uploadSpeeds
    rw [hAvg]
    rfl
  unfold runSpeedTest
  rw [hAvg, hUp]
  rfl

/-- A cycle whose first download attempt succeeds with a zero-byte body. -/
def dlZeroOkInput : ProbeInput where
  lat := fun _ => .err 0
  dl := ![.ok 0 100, .err, .err]
  up := fun _ => .netErr

/-- Witness for C10: replacing the zero-byte success by a failure leaves
the sample unchanged. -/
theorem zero_speed_success_like_failure_witness :
    runSpeedTest 0 (setDl dlZeroOkInput 0 DlAttempt.err) = runSpeedTest 0 dlZeroOkInput :=
  zero_speed_success_like_failure 0 dlZeroOkInput 0
    (by norm_num [dlZeroOkInput, dlSpeed])

/-- Triggering never changes the in-memory history. -/
theorem triggerTest_history (s : AppState) : (triggerTest s).history = s.history := by
  unfold triggerTest
  split <;> rfl

/-- A placeholder sample used for concrete scheduler runs. -/
def dummyResult (n : ℕ) : SpeedResult where
  timestamp := n
  download := 0
  upload := 0
  latency := 0
  jitter := 0

/-- `n` consecutive completed probe cycles from a fresh start. -/
def cycles : ℕ → AppState
  | 0 => initialState
  | n + 1 => completeTest (triggerTest (cycles n)) (dummyResult n) AIOutcome.noResponse

/-- Each completed cycle appends exactly one entry to the in-memory
history, which is never trimmed. -/
theorem cycles_history_length (n : ℕ) : (cycles n).history.length = n := by
  induction n with
  | zero => rfl
  | succ n ih =>
      show ((triggerTest (cycles n)).history ++ [dummyResult n]).length = n + 1
      rw [List.length_append, triggerTest_history, ih]
      rfl

/-- C5 counterexample: after 101 completed probe cycles from a fresh start
the scheduler's history holds 101 entries — the in-memory history list is
appended to without eviction (`setHistory(prev => [...prev, result])`);
only the copy persisted to `localStorage` is trimmed to 100. -/
theorem history_bound_cex : ¬ (cycles 101).history.length ≤ 100 := by
  rw [cycles_history_length]
  omega

/-- C5 amended: the bound holds for the persisted copy, not the in-memory
list: after every append the stored history is a suffix of the appended
history of at most 100 entries (the most recent ones), and appending to a
100-entry history evicts exactly the oldest entry from the stored copy,
while the in-memory history itself just grows by one. -/
theorem stored_history_bound (s : AppState) (r : SpeedResult) (c : AIOutcome) :
    (completeTest s r c).stored.length ≤ 100 ∧
      (completeTest s r c).stored <:+ (completeTest s r c).history ∧
      (completeTest s r c).history = s.history ++ [r] ∧
      (s.history.length = 100 →
        (completeTest s r c).stored = (s.history ++ [r]).tail) := by
  refine ⟨?_, ?_, rfl, ?_⟩
  · show (persistSlice (s.history ++ [r])).length ≤ 100
    unfold persistSlice
    rw [List.length_drop]
    omega
  · exact List.drop_suffix _ _
  · intro h100
    show persistSlice (s.history ++ [r]) = _
    unfold persistSlice
    rw [List.length_append, h100]
    norm_num [List.drop_one]

/-- A running scheduler state whose history already holds 100 entries. -/
def fullState : AppState where
  history := (List.range 100).map dummyResult
  stored := []
  insights := none
  isTesting := true

/-- Witness for the amended C5 at a 100-entry history. -/
theorem stored_history_bound_witness :
    (completeTest fullState (dummyResult 100) AIOutcome.noResponse).stored =
      (fullState.history ++ [dummyResult 100]).tail :=
  (stored_history_bound fullState (dummyResult 100) AIOutcome.noResponse).2.2.2
    (by simp [fullState])

/-- C6: the single-flight guarantee.  Both the manual Run Now trigger and
the countdown-tick trigger enter `performTest`, whose guard makes the call
a complete no-op while a cycle is Running (`isTesting` set): the state —
in particular the history and the flag — is unchanged, and no second
concurrent cycle is started. -/
theorem trigger_while_running_noop (s : AppState) (h : s.isTesting = true) :
    triggerTest s = s := by
  unfold triggerTest
  rw [h]
  rfl

/-- Witness for C6 at a concrete Running state. -/
theorem trigger_while_running_noop_witness : triggerTest fullState = fullState :=
  trigger_while_running_noop fullState rfl

/-- C7: any collaborator failure — no response, absent or empty text, or
unparseable content — on a nonempty history yields the fixed default
triple (`good`, the "unable to connect" summary, the fixed generic
recommendation), and the history produced by a completed cycle does not
depend on the collaborator outcome at all (it is exactly the appended
history). -/
theorem insight_failure_default :
    (∀ (h : List SpeedResult) (c : AIOutcome), h ≠ [] → c.failed →
        getNetworkInsights h c = connectFailInsight) ∧
      (∀ (s : AppState) (r : SpeedResult) (c : AIOutcome),
        (completeTest s r c).history = s.history ++ [r]) ∧
      connectFailInsight.status = InsightStatus.good ∧
      connectFailInsight.summary = "Unable to connect to AI analyzer at the moment." ∧
      connectFailInsight.recommendations = ["Verify your ISP plan if speeds seem low."] := by
  refine ⟨?_, fun s r c => rfl, rfl, rfl, rfl⟩
  intro h c hne hf
  have hemp : h.isEmpty = false := by
    cases h with
    | nil => exact absurd rfl hne
    | cons a t => rfl
  unfold getNetworkInsights
  rw [hemp]
  cases c with
  | noResponse => rfl
  | reply t p =>
      cases t with
      | none => rfl
      | some str =>
          simp only [AIOutcome.failed] at hf
          rcases hf with h1 | h2
          · simp [h1]
          · subst h2
            by_cases hs : str = "" <;> simp [hs]

/-- Witness for C7: a one-entry history and a thrown collaborator call. -/
theorem insight_failure_default_witness :
    getNetworkInsights [dummyResult 0] AIOutcome.noResponse = connectFailInsight :=
  insight_failure_default.1 [dummyResult 0] AIOutcome.noResponse (by simp) trivial

/-- C8: on the empty history the insight function returns the distinct
fixed triple (`fair`, the "insufficient data" summary, the fixed "keep
monitoring" recommendation) whatever the collaborator would have done —
the collaborator is never consulted. -/
theorem insight_empty_history (c : AIOutcome) :
    getNetworkInsights [] c = insufficientDataInsight ∧
      insufficientDataInsight.status = InsightStatus.fair ∧
      insufficientDataInsight.summary = "Insufficient data to analyze." ∧
      insufficientDataInsight.recommendations = ["Keep monitoring to gather trends."] :=
  ⟨rfl, rfl, rfl, rfl⟩
